import Mathlib

/-!
Shallow embedding of the collaborative-whiteboard backend's socket layer
(`backend/dist/socket/handlers.js`, together with the older lenient validator
variant of the same module) and proofs about its validation, persistence and
broadcast behaviour.

JavaScript values that can reach the element fields are modelled by `JValue`;
JS numbers (IEEE doubles) are modelled as rationals plus a distinguished `nan`
value, which is all the arithmetic the code under study performs (comparisons
with zero, truthiness, `isNaN`).  Stringification of non-integral numbers and
of arrays, which no code path under study observes, is abstracted to fixed
placeholder strings.
-/

/-- A JavaScript number: either NaN or a (rational) numeric value. -/
inductive JNum where
  | nan : JNum
  | val : ℚ → JNum
deriving DecidableEq, Repr

/-- A primitive JavaScript value, as it can appear as the `x`/`y` property of
a point object inside a points array. -/
inductive JPrim where
  | undef : JPrim
  | jnull : JPrim
  | num : JNum → JPrim
  | str : String → JPrim
  | bool : Bool → JPrim
deriving DecidableEq, Repr

namespace JPrim

/-- `typeof v === 'number'` for a point coordinate. -/
def isNumber : JPrim → Bool
  | .num _ => true
  | _ => false

/-- Numeric value of a coordinate known to be a number. -/
def asNum : JPrim → JNum
  | .num n => n
  | _ => .nan

end JPrim

/-- A JavaScript value as it can appear in an element payload field.
`parr` models an array of point objects, each represented by the (primitive)
values of its `x` and `y` properties. -/
inductive JValue where
  | undef : JValue
  | jnull : JValue
  | num : JNum → JValue
  | str : String → JValue
  | bool : Bool → JValue
  | parr : List (JPrim × JPrim) → JValue
deriving DecidableEq, Repr

namespace JValue

/-- JS truthiness. -/
def truthy : JValue → Bool
  | .undef => false
  | .jnull => false
  | .num .nan => false
  | .num (.val q) => q != 0
  | .str s => s != ""
  | .bool b => b
  | .parr _ => true

/-- `typeof v === 'number'`. -/
def isNumber : JValue → Bool
  | .num _ => true
  | _ => false

/-- Extract the numeric value of a value known to be a number (`Number(x)`
applied after a `typeof x === 'number'` check is the identity). -/
def asNum : JValue → JNum
  | .num n => n
  | _ => .nan

end JValue

/-- JS `String.prototype.trim()`, modelled over the character list (the
core-library `String.trim` is not kernel-reducible). -/
def jsTrim (s : String) : String :=
  ⟨((s.data.dropWhile Char.isWhitespace).reverse.dropWhile Char.isWhitespace).reverse⟩

/-- Value of a decimal digit string. -/
def digitsVal (l : List Char) : Nat :=
  l.foldl (fun n c => n * 10 + (c.toNat - '0'.toNat)) 0

/-- JS `Number(string)` restricted to the shapes the claims exercise:
the empty/whitespace string is 0, decimal digit strings (optionally signed)
parse, everything else is NaN.  (Fractional literals are abstracted to NaN;
no property proved here depends on which strings parse, because every code
path guards and stores a string's numeric value with the same coercion.) -/
def strToNum (s : String) : JNum :=
  let t := (jsTrim s).data
  if t = [] then .val 0
  else if t.all Char.isDigit then .val (digitsVal t)
  else if t.head? = some '-' ∧ t.tail ≠ [] ∧ t.tail.all Char.isDigit then
    .val (-(digitsVal t.tail : ℚ))
  else .nan

/-- JS `Number(v)`.  (`Number` of an array is abstracted to NaN; no code path
under study coerces an array to a number.) -/
def toNumber : JValue → JNum
  | .undef => .nan
  | .jnull => .val 0
  | .num n => n
  | .str s => strToNum s
  | .bool b => if b then .val 1 else .val 0
  | .parr _ => .nan

/-- JS `String(v)`.  Stringification of non-integral numbers and arrays is
abstracted to placeholder strings (never observed by the code under study). -/
def jToString : JValue → String
  | .undef => "undefined"
  | .jnull => "null"
  | .num .nan => "NaN"
  | .num (.val q) => if q.den = 1 then toString q.num else "#decimal"
  | .str s => s
  | .bool b => if b then "true" else "false"
  | .parr _ => "#array"

/-- `n || d` for a JS number `n` and numeric default `d`
(used for `Number(x) || 2` style defaults: NaN and 0 are falsy). -/
def numOr (n : JNum) (d : ℚ) : JNum :=
  match n with
  | .nan => .val d
  | .val q => if q = 0 then .val d else .val q

/-- `v <= 0` for a JS value holding a number: NaN comparisons are false. -/
def jleZero : JValue → Bool
  | .num (.val q) => q ≤ 0
  | _ => false

/-- An untrusted element record as received over the socket: the recognized
property names, each holding a JS value (`undef` = property absent), plus the
unrecognized extra properties of the payload. -/
structure JRec where
  id : JValue := .undef
  type : JValue := .undef
  x : JValue := .undef
  y : JValue := .undef
  color : JValue := .undef
  fillColor : JValue := .undef
  strokeWidth : JValue := .undef
  timestamp : JValue := .undef
  userId : JValue := .undef
  isComplete : JValue := .undef
  width : JValue := .undef
  height : JValue := .undef
  text : JValue := .undef
  fontSize : JValue := .undef
  fontFamily : JValue := .undef
  imageData : JValue := .undef
  shapeType : JValue := .undef
  points : JValue := .undef
  extra : List (String × JValue) := []
deriving DecidableEq, Repr

/-- The filter-and-map over a raw points array used by the strict validator:
keeps points whose `x` and `y` are numbers (`typeof === 'number'`, so NaN
passes) and coerces them. -/
def strictValidPoints (l : List (JPrim × JPrim)) : List (JNum × JNum) :=
  (l.filter (fun p => p.1.isNumber && p.2.isNumber)).map
    (fun p => (p.1.asNum, p.2.asNum))

/-- The filter-and-map over a raw points array used by the lenient validator:
additionally rejects NaN coordinates via `isNaN`. -/
def lenientValidPoints (l : List (JPrim × JPrim)) : List (JNum × JNum) :=
  (l.filter (fun p =>
      p.1.isNumber && p.2.isNumber && p.1.asNum != JNum.nan && p.2.asNum != JNum.nan)).map
    (fun p => (p.1.asNum, p.2.asNum))

/-- Re-encode sanitized points as a JS array value. -/
def pointsVal (l : List (JNum × JNum)) : JValue :=
  .parr (l.map (fun p => (JPrim.num p.1, JPrim.num p.2)))

/-- Optional numeric field coercion of the strict validator:
`if (e.f !== undefined) out.f = Number(e.f)` (no NaN check). -/
def optNum (v : JValue) : JValue :=
  if v = .undef then .undef else .num (toNumber v)

/-- Optional string field coercion: `if (e.f !== undefined) out.f = String(e.f)`. -/
def optStr (v : JValue) : JValue :=
  if v = .undef then .undef else .str (jToString v)

/-- The common sanitized record built by `validateAndSanitizeElement`
(backend/dist/socket/handlers.js lines 32-52) before type-specific checks.
`now` stands for `Date.now()`. -/
def buildSanitized (e : JRec) (userId : String) (isCompletion : Bool) (now : ℚ) : JRec :=
  { id := .str (jToString e.id)
    type := e.type
    x := .num e.x.asNum
    y := .num e.y.asNum
    color := if e.color.truthy then e.color else .str "#000000"
    strokeWidth := .num (numOr (toNumber e.strokeWidth) 2)
    timestamp := .num (numOr (toNumber e.timestamp) now)
    userId := .str (jToString (if e.userId.truthy then e.userId else .str userId))
    isComplete := .bool (e.isComplete.truthy || isCompletion)
    width := optNum e.width
    height := optNum e.height
    text := optStr e.text
    fontSize := optNum e.fontSize
    fontFamily := optStr e.fontFamily
    shapeType := optStr e.shapeType
    extra := [] }

/-- `['drawing', 'text', 'shape'].includes(element.type)` (strict `===`). -/
def typeIncluded (v : JValue) : Bool :=
  v == .str "drawing" || v == .str "text" || v == .str "shape"

/-- The truthy-and-recognized check on the sanitized `shapeType`
(`!s.shapeType || !['rectangle','circle','line'].includes(s.shapeType)`,
negated). -/
def shapeTypeOk : JValue → Bool
  | .str t => t != "" && (t = "rectangle" || t = "circle" || t = "line")
  | _ => false

/-- `validateAndSanitizeElement(element, userId, isCompletion)` from
backend/dist/socket/handlers.js lines 17-145: the strict two-stage validator.
Returns `none` exactly where the source returns `null`. -/
def validateAndSanitizeElement (e : JRec) (userId : String) (isCompletion : Bool)
    (now : ℚ) : Option JRec :=
  if ¬ (e.id.truthy ∧ e.type.truthy ∧ e.x.isNumber ∧ e.y.isNumber) then none
  else if ¬ typeIncluded e.type then none
  else
    let s0 := buildSanitized e userId isCompletion now
    if e.type = .str "drawing" then
      match e.points with
      | .parr l =>
        let vp := strictValidPoints l
        if vp.length = 0 then none
        else
          let s1 := { s0 with points := pointsVal vp }
          if isCompletion ∧ vp.length < 2 then none
          else if ¬ isCompletion ∧ vp.length < 1 then none
          else some s1
      | _ => none
    else if e.type = .str "shape" then
      if ¬ shapeTypeOk s0.shapeType then none
      else if isCompletion then
        if s0.shapeType = .str "line" then
          match e.points with
          | .parr l =>
            let vp := strictValidPoints l
            if vp.length ≥ 2 then some { s0 with points := pointsVal vp }
            else none
          | _ => none
        else
          if ¬ (s0.width.isNumber ∧ s0.height.isNumber ∧
                ¬ jleZero s0.width = true ∧ ¬ jleZero s0.height = true) then none
          else some s0
      else some s0
    else if e.type = .str "text" then
      if isCompletion then
        match s0.text with
        | .str t => if jsTrim t = "" then none else some s0
        | _ => none
      else some s0
    else some s0

/-- `isNaN(v)` (JS global isNaN: coerces then tests). -/
def jsIsNaN (v : JValue) : Bool :=
  toNumber v = JNum.nan

/-- `validShapeTypes.includes(element.shapeType)` in the lenient validator:
strict `===` against the raw (uncoerced) value. -/
def rawShapeValid (v : JValue) : Bool :=
  v == .str "rectangle" || v == .str "circle" || v == .str "line"

/-- The sanitized record built by the lenient validator `validateElement`
(src/unnamed/part_007 lines 20-50) before the points handling: required
fields coerced, optional numeric fields guarded by `isNaN`, unrecognized
`shapeType` omitted. -/
def lenientSanitized (e : JRec) (now : ℚ) : JRec :=
  { id := .str (jToString e.id)
    type := e.type
    x := .num e.x.asNum
    y := .num e.y.asNum
    color := if e.color.truthy then e.color else .str "#000000"
    strokeWidth := .num (numOr (toNumber e.strokeWidth) 2)
    timestamp := .num (numOr (toNumber e.timestamp) now)
    userId := .str (jToString (if e.userId.truthy then e.userId else .str "unknown"))
    isComplete := .bool e.isComplete.truthy
    width := if e.width ≠ .undef ∧ ¬ jsIsNaN e.width then .num (toNumber e.width) else .undef
    height := if e.height ≠ .undef ∧ ¬ jsIsNaN e.height then .num (toNumber e.height) else .undef
    text := optStr e.text
    fontSize := if e.fontSize ≠ .undef ∧ ¬ jsIsNaN e.fontSize then .num (toNumber e.fontSize) else .undef
    fontFamily := optStr e.fontFamily
    fillColor := if e.fillColor ≠ .undef then .str (jToString e.fillColor) else e.fillColor
    imageData := optStr e.imageData
    shapeType := if e.shapeType ≠ .undef ∧ rawShapeValid e.shapeType then e.shapeType else .undef
    extra := [] }

/-- `validateElement(element)` from the older lenient validator
(src/unnamed/part_007 lines 14-78): single-stage, drops optional numeric
fields that fail coercion, warns-and-omits unrecognized shape types,
never rejects on kind-specific content. -/
def validateElement (e : JRec) (now : ℚ) : Option JRec :=
  if ¬ (e.id.truthy ∧ e.type.truthy ∧ e.x.isNumber ∧ e.y.isNumber) then none
  else
    some (match e.points with
      | .parr l =>
        let vp := lenientValidPoints l
        if vp.length > 0 then { lenientSanitized e now with points := pointsVal vp }
        else lenientSanitized e now
      | _ => lenientSanitized e now)

/-- The lenient validator's `console.warn('Invalid shapeType', ...)` branch
(src/unnamed/part_007 lines 47-49): fires when a `shapeType` property is
present but not one of the recognized variants. -/
def validateElementWarns (e : JRec) : Bool :=
  e.shapeType != .undef && ! rawShapeValid e.shapeType

/-! ## The in-memory Registry, the persisted Store, and outbound events -/

/-- A Registry entry: `{ id, name, roomId, cursor? }` (handlers.js line 216). -/
structure User where
  id : String
  name : String
  roomId : String
  cursor : Option (JNum × JNum) := none
deriving DecidableEq, Repr

/-- The process-wide `users` Map, as an insertion-ordered association list
(JS `Map` iteration order). -/
abbrev Registry := List (String × User)

/-- `users.get(k)`. -/
def regGet (r : Registry) (k : String) : Option User :=
  (r.find? (fun p => p.1 = k)).map Prod.snd

/-- `users.set(k, v)`: updates in place if the key exists, appends otherwise. -/
def regSet (r : Registry) (k : String) (v : User) : Registry :=
  if (r.find? (fun p => p.1 = k)).isSome then
    r.map (fun p => if p.1 = k then (k, v) else p)
  else r ++ [(k, v)]

/-- `users.delete(k)`. -/
def regDelete (r : Registry) (k : String) : Registry :=
  r.filter (fun p => p.1 ≠ k)

/-- A persisted room document (models/Room.js): `roomId`, display name,
the `activeUsers` id set and the element array. -/
structure RoomDoc where
  roomId : String
  name : String
  activeUsers : List String := []
  elements : List JRec := []
deriving DecidableEq, Repr

/-- The room collection.  Room ids are unique, so `findOneAndUpdate` keyed by
`roomId` is modelled as a map over the matching rooms. -/
abbrev Store := List RoomDoc

/-- `Room.findOne({ roomId })`. -/
def findRoom (s : Store) (rid : String) : Option RoomDoc :=
  s.find? (fun r => r.roomId = rid)

/-- Apply an update to the room with the given id (no-op if absent). -/
def updateRoom (s : Store) (rid : String) (f : RoomDoc → RoomDoc) : Store :=
  s.map (fun r => if r.roomId = rid then f r else r)

/-- `Room.findOne({ roomId, 'elements.id': eid })` succeeds: the room exists
and holds an element whose `id` is the given string. -/
def roomHasElement (s : Store) (rid eid : String) : Bool :=
  match findRoom s rid with
  | some r => r.elements.any (fun e => e.id = .str eid)
  | none => false

/-- Positional `$set { 'elements.$': newE }`: replace the first element whose
`id` matches. -/
def replaceById : List JRec → String → JRec → List JRec
  | [], _, _ => []
  | e :: rest, eid, newE =>
    if e.id = .str eid then newE :: rest else e :: replaceById rest eid newE

/-- An outbound socket event: to the sender only (`socket.emit`), to the other
participants of a room (`socket.to(roomId).emit`), or to the whole room
including the sender (`io.to(roomId).emit`). -/
inductive Payload where
  | pMsg : String → Payload
  | pElement : JRec → Payload
  | pElements : List JRec → Payload
  | pElementId : String → Payload
  | pUpdates : String → JRec → Payload
  | pUserLeft : String → String → Payload
  | pCursor : String → String → (JNum × JNum) → Payload
  | pRoomId : String → Payload
  | pRoomJoined : String → String → List JRec → List User → Payload
  | pUserJoined : String → String → Payload
deriving DecidableEq, Repr

inductive Emit where
  | toSender : String → Payload → Emit
  | toOthers : String → String → Payload → Emit
  | toAll : String → String → Payload → Emit
deriving DecidableEq, Repr

/-! ## The retry wrapper (handlers.js lines 183-198)

The wrapped operation is modelled by the outcome of each attempt; the run
records the final outcome, the number of attempts made, and the backoff
sleeps (in ms) performed between attempts. -/

/-- The outcome of one attempt of a store operation: a value or a thrown
error carrying its `name`. -/
inductive Outcome (A : Type) where
  | ok : A → Outcome A
  | err : String → Outcome A
deriving DecidableEq, Repr

structure RunResult (A : Type) where
  result : Outcome A
  attempts : Nat
  sleeps : List Nat
deriving DecidableEq, Repr

/-- The `for (let attempt = 1; attempt <= maxRetries; attempt++)` loop body:
`fuel` is the number of loop iterations remaining.  Exiting the loop without
returning (unreachable for this loop shape) throws the terminal error, as in
the source. -/
def retryGo {A : Type} (op : Nat → Outcome A) (maxRetries delay : Nat) :
    Nat → Nat → RunResult A
  | 0, _ => ⟨.err "Error", 0, []⟩
  | fuel + 1, attempt =>
    match op attempt with
    | .ok a => ⟨.ok a, 1, []⟩
    | .err name =>
      if name = "VersionError" ∧ attempt < maxRetries then
        let r := retryGo op maxRetries delay fuel (attempt + 1)
        ⟨r.result, r.attempts + 1, delay * attempt :: r.sleeps⟩
      else ⟨.err name, 1, []⟩

/-- `retryOperation(operation, maxRetries = 3, delay = 100)`. -/
def retryOperation {A : Type} (op : Nat → Outcome A) : RunResult A :=
  retryGo op 3 100 3 1

/-! ## Session-coordinator event handlers (handlers.js lines 200-560)

Each handler is embedded as a pure function from its inputs and the current
state to the new state plus the list of outbound events.  The persistence
layer is the deterministic `Store`; environment-level persistence failures
(store unreachable, retry exhaustion) are injected explicitly only where a
claim is about them (the disconnect handler). -/

/-- `cleanupInvalidElements(room)` (lines 148-180): re-validate every stored
element at draft stage under user `'system'` and drop the failures. -/
def cleanupInvalidElements (els : List JRec) (now : ℚ) : List JRec :=
  els.filterMap (fun e => validateAndSanitizeElement e "system" false now)

/-- `$addToSet: { activeUsers: id }`. -/
def addToSet (l : List String) (x : String) : List String :=
  if x ∈ l then l else l ++ [x]

/-- `Array.from(users.values()).filter(u => u.roomId === roomId)`. -/
def roomUsers (reg : Registry) (rid : String) : List User :=
  (reg.map Prod.snd).filter (fun u => u.roomId = rid)

/-- The `join-room` handler (lines 205-254). -/
def joinRoom (store : Store) (reg : Registry) (sid userName rid : String) (now : ℚ) :
    Store × Registry × List Emit :=
  match findRoom store rid with
  | none => (store, reg, [.toSender "error" (.pMsg "Room not found")])
  | some room =>
    let store1 :=
      if (cleanupInvalidElements room.elements now).length = room.elements.length then store
      else updateRoom store rid (fun r => { r with elements := cleanupInvalidElements room.elements now })
    let reg1 := regSet reg sid ⟨sid, userName, rid, none⟩
    let store2 :=
      if sid ∈ room.activeUsers then store1
      else updateRoom store1 rid (fun r => { r with activeUsers := addToSet r.activeUsers sid })
    match findRoom store2 rid with
    | none => (store2, reg1, [.toSender "error" (.pMsg "Room not found")])
    | some fresh =>
      (store2, reg1,
        [.toSender "room-joined" (.pRoomJoined fresh.name rid fresh.elements (roomUsers reg1 rid)),
         .toOthers rid "user-joined" (.pUserJoined sid userName)])

/-- The `draw-element` handler (lines 257-284): draft-stage validation, then
`$push` onto the room's element array, then broadcast to the others. -/
def drawElement (store : Store) (sid rid : String) (element : JRec) (now : ℚ) :
    Store × List Emit :=
  match validateAndSanitizeElement element sid false now with
  | none => (store, [.toSender "error" (.pMsg "Invalid element data")])
  | some s =>
    match findRoom store rid with
    | none => (store, [.toSender "error" (.pMsg "Failed to save element")])
    | some _ =>
      (updateRoom store rid (fun r => { r with elements := r.elements ++ [s] }),
       [.toOthers rid "element-drawn" (.pElement s)])

/-- `'type' in updates && 'x' in updates && 'y' in updates` (line 293). -/
def isFullElement (u : JRec) : Bool :=
  !(u.type == .undef) && !(u.x == .undef) && !(u.y == .undef)

/-- `$set` of the sanitized partial-update fields onto the matched element
(`elements.$.key` per present key).  Unknown extra keys are dropped by the
schema (Mongoose strict mode). -/
def applyPatch (e patch : JRec) : JRec :=
  { id := if patch.id ≠ .undef then patch.id else e.id
    type := if patch.type ≠ .undef then patch.type else e.type
    x := if patch.x ≠ .undef then patch.x else e.x
    y := if patch.y ≠ .undef then patch.y else e.y
    color := if patch.color ≠ .undef then patch.color else e.color
    fillColor := if patch.fillColor ≠ .undef then patch.fillColor else e.fillColor
    strokeWidth := if patch.strokeWidth ≠ .undef then patch.strokeWidth else e.strokeWidth
    timestamp := if patch.timestamp ≠ .undef then patch.timestamp else e.timestamp
    userId := if patch.userId ≠ .undef then patch.userId else e.userId
    isComplete := if patch.isComplete ≠ .undef then patch.isComplete else e.isComplete
    width := if patch.width ≠ .undef then patch.width else e.width
    height := if patch.height ≠ .undef then patch.height else e.height
    text := if patch.text ≠ .undef then patch.text else e.text
    fontSize := if patch.fontSize ≠ .undef then patch.fontSize else e.fontSize
    fontFamily := if patch.fontFamily ≠ .undef then patch.fontFamily else e.fontFamily
    imageData := if patch.imageData ≠ .undef then patch.imageData else e.imageData
    shapeType := if patch.shapeType ≠ .undef then patch.shapeType else e.shapeType
    points := if patch.points ≠ .undef then patch.points else e.points
    extra := e.extra }

/-- Positional patch of the first element whose `id` matches. -/
def patchById : List JRec → String → JRec → List JRec
  | [], _, _ => []
  | e :: rest, eid, patch =>
    if e.id = .str eid then applyPatch e patch :: rest else e :: patchById rest eid patch

/-- The partial-update branch's sanitization of `shapeType`
(`if (updates.shapeType) partialUpdates.shapeType = String(updates.shapeType)`). -/
def sanitizePartialShapeType (u : JRec) : JRec :=
  if u.shapeType.truthy then { u with shapeType := .str (jToString u.shapeType) } else u

/-- The `update-element` handler (lines 287-354). -/
def updateElement (store : Store) (sid rid eid : String) (updates : JRec) (now : ℚ) :
    Store × List Emit :=
  if isFullElement updates then
    match validateAndSanitizeElement updates sid true now with
    | none => (store, [.toSender "error" (.pMsg "Invalid element data")])
    | some s =>
      if roomHasElement store rid eid then
        (updateRoom store rid (fun r => { r with elements := replaceById r.elements eid s }),
         [.toOthers rid "element-updated" (.pUpdates eid s)])
      else (store, [.toSender "error" (.pMsg "Failed to update element")])
  else
    match updates.points with
    | .parr l =>
      let vp := strictValidPoints l
      if vp.length < 2 then (store, [.toSender "error" (.pMsg "Invalid points data")])
      else
        let pu := sanitizePartialShapeType { updates with points := pointsVal vp }
        if roomHasElement store rid eid then
          (updateRoom store rid (fun r => { r with elements := patchById r.elements eid pu }),
           [.toOthers rid "element-updated" (.pUpdates eid pu)])
        else (store, [.toSender "error" (.pMsg "Failed to update element")])
    | _ =>
      let pu := sanitizePartialShapeType updates
      if roomHasElement store rid eid then
        (updateRoom store rid (fun r => { r with elements := patchById r.elements eid pu }),
         [.toOthers rid "element-updated" (.pUpdates eid pu)])
      else (store, [.toSender "error" (.pMsg "Failed to update element")])

/-- The `delete-element` handler (lines 357-374): `$pull` by element id. -/
def deleteElement (store : Store) (rid eid : String) : Store × List Emit :=
  match findRoom store rid with
  | none => (store, [.toSender "error" (.pMsg "Failed to delete element")])
  | some _ =>
    (updateRoom store rid (fun r => { r with elements := r.elements.filter (fun e => e.id ≠ .str eid) }),
     [.toOthers rid "element-deleted" (.pElementId eid)])

/-- The `clear-canvas` handler (lines 377-400): empty the element array, then
broadcast to the whole room including the sender. -/
def clearCanvas (store : Store) (rid : String) : Store × List Emit :=
  match findRoom store rid with
  | none => (store, [.toSender "error" (.pMsg "Failed to clear canvas")])
  | some _ =>
    (updateRoom store rid (fun r => { r with elements := [] }),
     [.toAll rid "canvas-cleared" (.pRoomId rid)])

/-- The `undo-action` handler (lines 403-432): draft-stage validation of every
element, full replace of the room's element list, broadcast of the filtered
list to the others. -/
def undoAction (store : Store) (sid rid : String) (elements : List JRec) (now : ℚ) :
    Store × List Emit :=
  let validated := elements.filterMap (fun e => validateAndSanitizeElement e sid false now)
  match findRoom store rid with
  | none => (store, [.toSender "error" (.pMsg "Failed to process undo action")])
  | some _ =>
    (updateRoom store rid (fun r => { r with elements := validated }),
     [.toOthers rid "undo-action" (.pElements validated)])

/-- The `redo-action` handler (lines 435-464): identical to undo except for
the event name and error message. -/
def redoAction (store : Store) (sid rid : String) (elements : List JRec) (now : ℚ) :
    Store × List Emit :=
  let validated := elements.filterMap (fun e => validateAndSanitizeElement e sid false now)
  match findRoom store rid with
  | none => (store, [.toSender "error" (.pMsg "Failed to process redo action")])
  | some _ =>
    (updateRoom store rid (fun r => { r with elements := validated }),
     [.toOthers rid "redo-action" (.pElements validated)])

/-- The `cursor-move` handler (lines 466-478). -/
def cursorMove (reg : Registry) (sid rid : String) (cursor : JNum × JNum) :
    Registry × List Emit :=
  match regGet reg sid with
  | some u =>
    if u.roomId = rid then
      (regSet reg sid { u with cursor := some cursor },
       [.toOthers rid "cursor-moved" (.pCursor sid u.name cursor)])
    else (reg, [])
  | none => (reg, [])

/-- The `complete-element` handler (lines 511-538): completion-stage
validation, positional replace of the matched element, broadcast to others. -/
def completeElement (store : Store) (sid rid eid : String) (element : JRec) (now : ℚ) :
    Store × List Emit :=
  match validateAndSanitizeElement element sid true now with
  | none => (store, [.toSender "error" (.pMsg "Invalid element data for completion")])
  | some s =>
    if roomHasElement store rid eid then
      (updateRoom store rid (fun r => { r with elements := replaceById r.elements eid s }),
       [.toOthers rid "element-completed" (.pElement s)])
    else (store, [.toSender "error" (.pMsg "Failed to complete element")])

/-- Result of the awaited `retryOperation(...)` call in the disconnect
handler: either the store write went through, or the persistence layer failed
(retry exhaustion / store unreachable) and the awaited call threw. -/
inductive PersistOutcome where
  | ok : PersistOutcome
  | fails : PersistOutcome
deriving DecidableEq, Repr

/-- The `disconnect` handler (lines 541-560).  The `$pull` of the connection
id from `activeUsers`, the `user-left` broadcast and the `users.delete` all
sit inside one `try` block; the `catch` only logs. -/
def disconnectHandler (reg : Registry) (store : Store) (sid : String)
    (persist : PersistOutcome) : Registry × Store × List Emit :=
  match regGet reg sid with
  | none => (reg, store, [])
  | some u =>
    match persist with
    | .fails => (reg, store, [])
    | .ok =>
      (regDelete reg sid,
       updateRoom store u.roomId (fun r => { r with activeUsers := r.activeUsers.filter (fun a => a ≠ sid) }),
       [.toOthers u.roomId "user-left" (.pUserLeft sid u.name)])

/-! ## C4: the retry policy -/

theorem retry_eval_ok1 {A : Type} (op : Nat → Outcome A) (a : A) (hop1 : op 1 = .ok a) :
    retryOperation op = ⟨.ok a, 1, []⟩ := by
  simp [retryOperation, retryGo, hop1]

theorem retry_eval_err1 {A : Type} (op : Nat → Outcome A) (n : String)
    (hop1 : op 1 = .err n) (hv : n ≠ "VersionError") :
    retryOperation op = ⟨.err n, 1, []⟩ := by
  simp [retryOperation, retryGo, hop1, hv]

theorem retry_eval_ok2 {A : Type} (op : Nat → Outcome A) (a : A)
    (hop1 : op 1 = .err "VersionError") (hop2 : op 2 = .ok a) :
    retryOperation op = ⟨.ok a, 2, [100]⟩ := by
  simp [retryOperation, retryGo, hop1, hop2]

theorem retry_eval_err2 {A : Type} (op : Nat → Outcome A) (n : String)
    (hop1 : op 1 = .err "VersionError") (hop2 : op 2 = .err n) (hv : n ≠ "VersionError") :
    retryOperation op = ⟨.err n, 2, [100]⟩ := by
  simp [retryOperation, retryGo, hop1, hop2, hv]

theorem retry_eval_ok3 {A : Type} (op : Nat → Outcome A) (a : A)
    (hop1 : op 1 = .err "VersionError") (hop2 : op 2 = .err "VersionError")
    (hop3 : op 3 = .ok a) : retryOperation op = ⟨.ok a, 3, [100, 200]⟩ := by
  simp [retryOperation, retryGo, hop1, hop2, hop3]

theorem retry_eval_err3 {A : Type} (op : Nat → Outcome A) (n : String)
    (hop1 : op 1 = .err "VersionError") (hop2 : op 2 = .err "VersionError")
    (hop3 : op 3 = .err n) : retryOperation op = ⟨.err n, 3, [100, 200]⟩ := by
  rcases eq_or_ne n "VersionError" with h | h
  · subst h; simp [retryOperation, retryGo, hop1, hop2, hop3]
  · simp [retryOperation, retryGo, hop1, hop2, hop3, h]

/-- Exhaustive scenario split for a run of the retry wrapper. -/
theorem retry_cases {A : Type} (op : Nat → Outcome A) :
    (∃ a, op 1 = .ok a ∧ retryOperation op = ⟨.ok a, 1, []⟩) ∨
    (∃ n, n ≠ "VersionError" ∧ op 1 = .err n ∧ retryOperation op = ⟨.err n, 1, []⟩) ∨
    (op 1 = .err "VersionError" ∧
      ((∃ a, op 2 = .ok a ∧ retryOperation op = ⟨.ok a, 2, [100]⟩) ∨
       (∃ n, n ≠ "VersionError" ∧ op 2 = .err n ∧ retryOperation op = ⟨.err n, 2, [100]⟩) ∨
       (op 2 = .err "VersionError" ∧
         ((∃ a, op 3 = .ok a ∧ retryOperation op = ⟨.ok a, 3, [100, 200]⟩) ∨
          (∃ n, op 3 = .err n ∧ retryOperation op = ⟨.err n, 3, [100, 200]⟩))))) := by
  rcases hop1 : op 1 with a1 | n1
  · exact Or.inl ⟨a1, rfl, retry_eval_ok1 op a1 hop1⟩
  · rcases eq_or_ne n1 "VersionError" with hv1 | hv1
    · subst hv1
      rcases hop2 : op 2 with a2 | n2
      · exact Or.inr (Or.inr ⟨rfl, Or.inl ⟨a2, rfl, retry_eval_ok2 op a2 hop1 hop2⟩⟩)
      · rcases eq_or_ne n2 "VersionError" with hv2 | hv2
        · subst hv2
          rcases hop3 : op 3 with a3 | n3
          · exact Or.inr (Or.inr ⟨rfl, Or.inr (Or.inr ⟨rfl,
              Or.inl ⟨a3, rfl, retry_eval_ok3 op a3 hop1 hop2 hop3⟩⟩)⟩)
          · exact Or.inr (Or.inr ⟨rfl, Or.inr (Or.inr ⟨rfl,
              Or.inr ⟨n3, rfl, retry_eval_err3 op n3 hop1 hop2 hop3⟩⟩)⟩)
        · exact Or.inr (Or.inr ⟨rfl,
            Or.inr (Or.inl ⟨n2, hv2, rfl, retry_eval_err2 op n2 hop1 hop2 hv2⟩)⟩)
    · exact Or.inr (Or.inl ⟨n1, hv1, rfl, retry_eval_err1 op n1 hop1 hv1⟩)

/-- C4: the wrapped operation is attempted at most 3 times; every retried
(non-final) attempt had failed with a `VersionError` (the stale-version
optimistic-concurrency conflict); the backoff sleeps between attempts are
`attempt-number × 100` ms; an error of any other name propagates immediately
from the first attempt at which it occurs; three conflicts in a row surface a
terminal failure after the third attempt. -/
theorem retryOperation_policy {A : Type} (op : Nat → Outcome A) :
    (retryOperation op).attempts ≤ 3 ∧
    (∀ k, 1 ≤ k → k < (retryOperation op).attempts → op k = .err "VersionError") ∧
    (retryOperation op).sleeps =
      (List.range ((retryOperation op).attempts - 1)).map (fun i => 100 * (i + 1)) ∧
    (∀ n, op 1 = .err n → n ≠ "VersionError" → retryOperation op = ⟨.err n, 1, []⟩) ∧
    (∀ n, op 1 = .err "VersionError" → op 2 = .err n → n ≠ "VersionError" →
      retryOperation op = ⟨.err n, 2, [100]⟩) ∧
    (∀ n, op 1 = .err "VersionError" → op 2 = .err "VersionError" → op 3 = .err n →
      retryOperation op = ⟨.err n, 3, [100, 200]⟩) := by
  refine ⟨?_, ?_, ?_, ?_, ?_, ?_⟩
  · rcases retry_cases op with ⟨a, _, hr⟩ | ⟨n, _, _, hr⟩ | ⟨_, hrest⟩
    · simp [hr]
    · simp [hr]
    · rcases hrest with ⟨a, _, hr⟩ | ⟨n, _, _, hr⟩ | ⟨_, ⟨a, _, hr⟩ | ⟨n, _, hr⟩⟩ <;> simp [hr]
  · intro k hk1 hk2
    rcases retry_cases op with ⟨a, _, hr⟩ | ⟨n, _, _, hr⟩ | ⟨h1, hrest⟩
    · simp [hr] at hk2; omega
    · simp [hr] at hk2; omega
    · rcases hrest with ⟨a, _, hr⟩ | ⟨n, _, _, hr⟩ | ⟨h2, ⟨a, _, hr⟩ | ⟨n, _, hr⟩⟩ <;>
        rw [hr] at hk2 <;> simp at hk2
      · have : k = 1 := by omega
        simpa [this] using h1
      · have : k = 1 := by omega
        simpa [this] using h1
      · interval_cases k
        · exact h1
        · exact h2
      · interval_cases k
        · exact h1
        · exact h2
  · rcases retry_cases op with ⟨a, _, hr⟩ | ⟨n, _, _, hr⟩ | ⟨h1, hrest⟩
    · simp [hr]
    · simp [hr]
    · rcases hrest with ⟨a, _, hr⟩ | ⟨n, _, _, hr⟩ | ⟨h2, ⟨a, _, hr⟩ | ⟨n, _, hr⟩⟩ <;>
        simp [hr, List.range_succ]
  · exact fun n h1 hv => retry_eval_err1 op n h1 hv
  · exact fun n h1 h2 hv => retry_eval_err2 op n h1 h2 hv
  · exact fun n h1 h2 h3 => retry_eval_err3 op n h1 h2 h3

/-- Witness for C4: a concrete non-conflict error propagates after exactly one
attempt, with no retry and no sleep. -/
theorem retryOperation_policy_witness :
    retryOperation (fun _ => (Outcome.err "CastError" : Outcome Nat)) =
      ⟨.err "CastError", 1, []⟩ :=
  (retryOperation_policy (fun _ => (Outcome.err "CastError" : Outcome Nat))).2.2.2.1
    "CastError" rfl (by decide)

/-! ## C5: join against an unknown room -/

/-- C5: a `join-room` for a room id that was never created emits exactly one
`Room not found` error to the sender, leaves the Registry untouched (no
participant entry is created) and leaves the Store untouched (the room is not
implicitly created). -/
theorem joinRoom_unknown_room (store : Store) (reg : Registry)
    (sid userName rid : String) (now : ℚ) (h : findRoom store rid = none) :
    joinRoom store reg sid userName rid now =
      (store, reg, [.toSender "error" (.pMsg "Room not found")]) := by
  unfold joinRoom
  rw [h]

/-- Witness for C5 at a concrete store holding one unrelated room. -/
theorem joinRoom_unknown_room_witness :
    joinRoom [⟨"roomA", "A", [], []⟩] [] "s1" "alice" "missing" 0 =
      ([⟨"roomA", "A", [], []⟩], [], [.toSender "error" (.pMsg "Room not found")]) :=
  joinRoom_unknown_room [⟨"roomA", "A", [], []⟩] [] "s1" "alice" "missing" 0 (by decide)

/-! ## C10: the cursor-move gate -/

/-- C10: a `cursor-move` from a connection that is not registered, or whose
registered room differs from the event's room, changes nothing and emits
nothing (no broadcast, no error); conversely any cursor broadcast comes from
a connection registered in that very room. -/
theorem cursorMove_gate (reg : Registry) (sid rid : String) (cursor : JNum × JNum) :
    (regGet reg sid = none → cursorMove reg sid rid cursor = (reg, [])) ∧
    (∀ u, regGet reg sid = some u → u.roomId ≠ rid →
      cursorMove reg sid rid cursor = (reg, [])) ∧
    ((cursorMove reg sid rid cursor).2 ≠ [] →
      ∃ u, regGet reg sid = some u ∧ u.roomId = rid) := by
  refine ⟨?_, ?_, ?_⟩
  · intro h
    unfold cursorMove
    rw [h]
  · intro u hu hne
    unfold cursorMove
    rw [hu]
    simp [hne]
  · intro hne
    unfold cursorMove at hne
    rcases hu : regGet reg sid with _ | u
    · rw [hu] at hne; simp at hne
    · rw [hu] at hne
      by_cases hr : u.roomId = rid
      · exact ⟨u, rfl, hr⟩
      · simp [hr] at hne

/-- Witness for C10: a registered user of a different room is silently
ignored. -/
theorem cursorMove_gate_witness :
    cursorMove [("s1", ⟨"s1", "alice", "roomA", none⟩)] "s1" "roomB" (.val 1, .val 2) =
      ([("s1", ⟨"s1", "alice", "roomA", none⟩)], []) :=
  (cursorMove_gate [("s1", ⟨"s1", "alice", "roomA", none⟩)] "s1" "roomB" (.val 1, .val 2)).2.1
    ⟨"s1", "alice", "roomA", none⟩ (by decide) (by decide)

/-! ## C3: disconnect under persistence failure -/

/-- Counterexample to C3 as stated: with a registered participant, a
persistence failure during disconnect cleanup produces *no* `user-left`
broadcast and leaves the Registry entry in place (the broadcast and the
`users.delete` sit inside the same `try` block as the failed store write),
contradicting the claim that both still happen. -/
theorem disconnect_persist_failure_cex :
    disconnectHandler [("s1", ⟨"s1", "alice", "roomA", none⟩)]
        [⟨"roomA", "A", ["s1"], []⟩] "s1" .fails =
      ([("s1", ⟨"s1", "alice", "roomA", none⟩)], [⟨"roomA", "A", ["s1"], []⟩], []) := by
  decide

/-- C3 (amended): for a registered connection, when the persisted removal
fails after retry exhaustion the disconnect handler swallows the error: it
does not broadcast `user-left`, does not touch the Store, and does not remove
the Registry entry; only on persistence success does it remove the connection
id from the room's active users, broadcast `user-left` to the rest of the
room, and delete the Registry entry. -/
theorem disconnect_persist_failure (reg : Registry) (store : Store) (sid : String)
    (u : User) (hu : regGet reg sid = some u) :
    disconnectHandler reg store sid .fails = (reg, store, []) ∧
    disconnectHandler reg store sid .ok =
      (regDelete reg sid,
       updateRoom store u.roomId
         (fun r => { r with activeUsers := r.activeUsers.filter (fun a => a ≠ sid) }),
       [.toOthers u.roomId "user-left" (.pUserLeft sid u.name)]) := by
  constructor
  · unfold disconnectHandler
    rw [hu]
  · unfold disconnectHandler
    rw [hu]

/-- Witness for the amended C3 at a concrete registry and store. -/
theorem disconnect_persist_failure_witness :
    disconnectHandler [("s1", ⟨"s1", "alice", "roomA", none⟩)]
        [⟨"roomA", "A", ["s1", "s2"], []⟩] "s1" .ok =
      ([], [⟨"roomA", "A", ["s2"], []⟩],
       [.toOthers "roomA" "user-left" (.pUserLeft "s1" "alice")]) := by
  have h := (disconnect_persist_failure [("s1", ⟨"s1", "alice", "roomA", none⟩)]
    [⟨"roomA", "A", ["s1", "s2"], []⟩] "s1" ⟨"s1", "alice", "roomA", none⟩ (by decide)).2
  rw [h]
  decide

/-! ## C2: undo/redo is filter-and-replace -/

/-- C2: for every client-submitted element list, undo and redo validate each
element independently at the draft stage (`isCompletion = false`), silently
drop the individually invalid ones (`List.filterMap`, which keeps the
survivors in their original relative order), replace the room's element list
with exactly the surviving list, and broadcast that same filtered list to the
other participants of the room. -/
theorem undo_redo_filter_replace (store : Store) (sid rid : String)
    (els : List JRec) (now : ℚ) (room : RoomDoc) (h : findRoom store rid = some room) :
    undoAction store sid rid els now =
      (updateRoom store rid (fun r =>
        { r with elements := els.filterMap (fun e => validateAndSanitizeElement e sid false now) }),
       [.toOthers rid "undo-action"
         (.pElements (els.filterMap (fun e => validateAndSanitizeElement e sid false now)))]) ∧
    redoAction store sid rid els now =
      (updateRoom store rid (fun r =>
        { r with elements := els.filterMap (fun e => validateAndSanitizeElement e sid false now) }),
       [.toOthers rid "redo-action"
         (.pElements (els.filterMap (fun e => validateAndSanitizeElement e sid false now)))]) := by
  constructor
  · unfold undoAction
    rw [h]
  · unfold redoAction
    rw [h]

/-- A draft-valid freehand stroke used in concrete scenarios. -/
def gDraw : JRec :=
  { id := .str "a", type := .str "drawing", x := .num (.val 1), y := .num (.val 2),
    points := .parr [(.num (.val 0), .num (.val 0))] }

/-- Its sanitized form under user `"u"` at `now = 0`. -/
def gDrawSan : JRec :=
  { id := .str "a", type := .str "drawing", x := .num (.val 1), y := .num (.val 2),
    color := .str "#000000", strokeWidth := .num (.val 2), timestamp := .num (.val 0),
    userId := .str "u", isComplete := .bool false,
    points := .parr [(.num (.val 0), .num (.val 0))] }

/-- A draft-valid text element used in concrete scenarios. -/
def gText : JRec :=
  { id := .str "b", type := .str "text", x := .num (.val 3), y := .num (.val 4) }

/-- Its sanitized form under user `"u"` at `now = 0`. -/
def gTextSan : JRec :=
  { id := .str "b", type := .str "text", x := .num (.val 3), y := .num (.val 4),
    color := .str "#000000", strokeWidth := .num (.val 2), timestamp := .num (.val 0),
    userId := .str "u", isComplete := .bool false }

/-- Witness for C2 (the P4 scenario): one structurally invalid element among
two valid ones is dropped; exactly the two valid ones are persisted and
broadcast, in their original relative order. -/
theorem undo_redo_filter_replace_witness :
    undoAction [⟨"r", "R", [], []⟩] "u" "r" [gDraw, {}, gText] 0 =
      ([⟨"r", "R", [], [gDrawSan, gTextSan]⟩],
       [.toOthers "r" "undo-action" (.pElements [gDrawSan, gTextSan])]) := by
  have h := (undo_redo_filter_replace [⟨"r", "R", [], []⟩] "u" "r" [gDraw, {}, gText] 0
    ⟨"r", "R", [], []⟩ (by decide)).1
  rw [h]
  decide

/-! ## C6: broadcast scopes -/

/-- Every event a mutation handler may emit is either an error to the sender
or the given success event to the other participants of the room — in
particular never a whole-room (`io.to`) broadcast and never an echo of the
success event to the sender. -/
def othersOnlyScope (rid ev : String) (l : List Emit) : Prop :=
  ∀ em ∈ l, (∃ p, em = .toSender "error" p) ∨ (∃ p, em = .toOthers rid ev p)

/-- C6: a successful `clear-canvas` is broadcast with `io.to(roomId)` — to all
participants including the sender — and it is the only document-mutating
event with that scope: `draw-element`, `update-element`, `complete-element`
and `delete-element` emit their success events with `socket.to(roomId)` (the
other participants only) and otherwise only sender-only errors. -/
theorem broadcast_scopes (store : Store) (sid rid eid : String) (e u : JRec) (now : ℚ) :
    (∀ room, findRoom store rid = some room →
      clearCanvas store rid =
        (updateRoom store rid (fun r => { r with elements := [] }),
         [.toAll rid "canvas-cleared" (.pRoomId rid)])) ∧
    (∀ s room, validateAndSanitizeElement e sid false now = some s →
      findRoom store rid = some room →
      drawElement store sid rid e now =
        (updateRoom store rid (fun r => { r with elements := r.elements ++ [s] }),
         [.toOthers rid "element-drawn" (.pElement s)])) ∧
    (∀ s, validateAndSanitizeElement e sid true now = some s →
      roomHasElement store rid eid = true →
      completeElement store sid rid eid e now =
        (updateRoom store rid (fun r => { r with elements := replaceById r.elements eid s }),
         [.toOthers rid "element-completed" (.pElement s)])) ∧
    (∀ room, findRoom store rid = some room →
      deleteElement store rid eid =
        (updateRoom store rid
          (fun r => { r with elements := r.elements.filter (fun el => el.id ≠ .str eid) }),
         [.toOthers rid "element-deleted" (.pElementId eid)])) ∧
    (∀ s, isFullElement u = true → validateAndSanitizeElement u sid true now = some s →
      roomHasElement store rid eid = true →
      updateElement store sid rid eid u now =
        (updateRoom store rid (fun r => { r with elements := replaceById r.elements eid s }),
         [.toOthers rid "element-updated" (.pUpdates eid s)])) ∧
    othersOnlyScope rid "element-drawn" (drawElement store sid rid e now).2 ∧
    othersOnlyScope rid "element-updated" (updateElement store sid rid eid u now).2 ∧
    othersOnlyScope rid "element-completed" (completeElement store sid rid eid e now).2 ∧
    othersOnlyScope rid "element-deleted" (deleteElement store rid eid).2 := by
  refine ⟨?_, ?_, ?_, ?_, ?_, ?_, ?_, ?_, ?_⟩
  · intro room h
    unfold clearCanvas
    rw [h]
  · intro s room hv h
    unfold drawElement
    rw [hv, h]
  · intro s hv h
    unfold completeElement
    rw [hv]
    simp [h]
  · intro room h
    unfold deleteElement
    rw [h]
  · intro s hf hv h
    unfold updateElement
    rw [if_pos hf, hv]
    simp [h]
  · intro em hm
    unfold drawElement at hm
    repeat' split at hm
    all_goals simp at hm
    all_goals first
      | exact Or.inl ⟨_, hm⟩
      | exact Or.inr ⟨_, hm⟩
  · intro em hm
    unfold updateElement at hm
    repeat' (first | split at hm | dsimp only at hm)
    all_goals simp at hm
    all_goals first
      | exact Or.inl ⟨_, hm⟩
      | exact Or.inr ⟨_, hm⟩
  · intro em hm
    unfold completeElement at hm
    repeat' split at hm
    all_goals simp at hm
    all_goals first
      | exact Or.inl ⟨_, hm⟩
      | exact Or.inr ⟨_, hm⟩
  · intro em hm
    unfold deleteElement at hm
    repeat' split at hm
    all_goals simp at hm
    all_goals first
      | exact Or.inl ⟨_, hm⟩
      | exact Or.inr ⟨_, hm⟩

/-- Witness for C6: a successful clear of a concrete room is broadcast
whole-room (`toAll`, sender included). -/
theorem broadcast_scopes_witness :
    clearCanvas [⟨"r", "R", [], [gDrawSan]⟩] "r" =
      ([⟨"r", "R", [], []⟩], [.toAll "r" "canvas-cleared" (.pRoomId "r")]) := by
  have h := (broadcast_scopes [⟨"r", "R", [], [gDrawSan]⟩] "u" "r" "x" {} {} 0).1
    ⟨"r", "R", [], [gDrawSan]⟩ (by decide)
  rw [h]
  decide

/-! ## C1: the completion gate -/

/-- Number of valid points (under the strict validator's point filter) in a
raw `points` field; 0 when the field is not an array. -/
def countStrictPoints (v : JValue) : Nat :=
  match v with
  | .parr l => (strictValidPoints l).length
  | _ => 0

/-- `0 < n` for a JS number — NaN is not strictly positive. -/
def jnumPos : JNum → Bool
  | .val q => decide (0 < q)
  | .nan => false

/-- Spec-side: the structural (any-stage) validity conditions — id and kind
present and truthy, numeric coordinates, recognized kind; a freehand stroke
carries a points array with at least one valid point; a shape carries a
recognized shape-variant. -/
def specStructOk (e : JRec) : Bool :=
  e.id.truthy && e.type.truthy && e.x.isNumber && e.y.isNumber && typeIncluded e.type &&
  (if e.type == .str "drawing" then decide (1 ≤ countStrictPoints e.points) else true) &&
  (if e.type == .str "shape" then shapeTypeOk (optStr e.shapeType) else true)

/-- Spec-side: the kind-specific minimum-content rule exactly as the claim
states it: freehand ≥ 2 points, line **exactly 2** valid points, rectangle
and circle **strictly positive** width and height, text non-empty after
trimming. -/
def specKindRuleClaimed (e : JRec) : Bool :=
  if e.type == .str "drawing" then decide (2 ≤ countStrictPoints e.points)
  else if e.type == .str "shape" then
    (if jToString e.shapeType = "line" then decide (countStrictPoints e.points = 2)
     else jnumPos (toNumber e.width) && jnumPos (toNumber e.height))
  else if e.type == .str "text" then
    e.text != .undef && jsTrim (jToString e.text) != ""
  else true

/-- Spec-side: the kind-specific minimum-content rule as the code actually
enforces it: freehand ≥ 2 valid points, line **at least 2** valid points,
rectangle and circle have width and height present whose numeric value is
**not ≤ 0** (so NaN dimensions pass), text non-empty after trimming. -/
def specKindRuleAmended (e : JRec) : Bool :=
  if e.type == .str "drawing" then decide (2 ≤ countStrictPoints e.points)
  else if e.type == .str "shape" then
    (if jToString e.shapeType = "line" then decide (2 ≤ countStrictPoints e.points)
     else e.width != .undef && e.height != .undef &&
          !jleZero (optNum e.width) && !jleZero (optNum e.height))
  else if e.type == .str "text" then
    e.text != .undef && jsTrim (jToString e.text) != ""
  else true

/-- Completion-stage validation succeeds exactly on the structurally valid
payloads satisfying the (amended) kind-specific minimum-content rule. -/
theorem validate_completion_isSome (e : JRec) (u : String) (now : ℚ) :
    (validateAndSanitizeElement e u true now).isSome ↔
      (specStructOk e ∧ specKindRuleAmended e) := by
  by_cases h1 : e.id.truthy
  case neg => simp [validateAndSanitizeElement, specStructOk, h1]
  by_cases h2 : e.type.truthy
  case neg => simp [validateAndSanitizeElement, specStructOk, h2]
  by_cases h3 : e.x.isNumber
  case neg => simp [validateAndSanitizeElement, specStructOk, h3]
  by_cases h4 : e.y.isNumber
  case neg => simp [validateAndSanitizeElement, specStructOk, h4]
  by_cases h5 : typeIncluded e.type
  case neg => simp [validateAndSanitizeElement, specStructOk, h1, h2, h3, h4, h5]
  have h5' := h5
  simp only [typeIncluded, Bool.or_eq_true, beq_iff_eq] at h5'
  rcases h5' with (ht | ht) | ht
  · -- drawing
    have t1 : (JValue.str "drawing").truthy = true := rfl
    have t2 : typeIncluded (JValue.str "drawing") = true := rfl
    rcases hp : e.points with _ | _ | _ | _ | _ | l
    iterate 5
      simp [validateAndSanitizeElement, specStructOk, specKindRuleAmended,
        countStrictPoints, h1, h3, h4, ht, hp, t1, t2]
    -- parr
    simp [validateAndSanitizeElement, specStructOk, specKindRuleAmended, buildSanitized,
      countStrictPoints, h1, h3, h4, ht, hp, t1, t2]
    split_ifs <;> simp_all <;> omega
  · -- text
    have t1 : (JValue.str "text").truthy = true := rfl
    have t2 : typeIncluded (JValue.str "text") = true := rfl
    by_cases htxt : e.text = JValue.undef
    · simp [validateAndSanitizeElement, specStructOk, specKindRuleAmended, buildSanitized,
        optStr, jToString, h1, h3, h4, ht, htxt, t1, t2]
    · simp [validateAndSanitizeElement, specStructOk, specKindRuleAmended, buildSanitized,
        optStr, h1, h3, h4, ht, htxt, t1, t2]
  · -- shape
    have t1 : (JValue.str "shape").truthy = true := rfl
    have t2 : typeIncluded (JValue.str "shape") = true := rfl
    by_cases hst : shapeTypeOk (optStr e.shapeType)
    case neg =>
      simp [validateAndSanitizeElement, specStructOk, buildSanitized,
        h1, h3, h4, ht, hst, t1, t2]
    by_cases hline : jToString e.shapeType = "line"
    · have hne : e.shapeType ≠ JValue.undef := by
        intro hu
        rw [hu] at hline
        simp [jToString] at hline
      have hos : optStr e.shapeType = JValue.str "line" := by
        simp [optStr, hne, hline]
      rcases hp : e.points with _ | _ | _ | _ | _ | l
      iterate 5
        simp [validateAndSanitizeElement, specStructOk, specKindRuleAmended, buildSanitized,
          countStrictPoints, h1, h3, h4, ht, hst, hline, hos, hp, t1, t2]
      -- parr
      have t3 : shapeTypeOk (JValue.str "line") = true := rfl
      simp [validateAndSanitizeElement, specStructOk, specKindRuleAmended, buildSanitized,
        countStrictPoints, h1, h3, h4, ht, hst, hline, hos, hp, t1, t2, t3]
    · have hnotline : optStr e.shapeType ≠ JValue.str "line" := by
        unfold optStr
        by_cases hu : e.shapeType = JValue.undef
        · simp [hu]
        · simp [hu, hline]
      have inum : ∀ n : JNum, (JValue.num n).isNumber = true := fun _ => rfl
      have iundef : (JValue.undef).isNumber = false := rfl
      by_cases hw : e.width = JValue.undef
      · simp [validateAndSanitizeElement, specStructOk, specKindRuleAmended, buildSanitized,
          optNum, h1, h3, h4, ht, hst, hline, hnotline, t1, t2, inum, iundef, hw]
      · by_cases hh : e.height = JValue.undef
        · simp [validateAndSanitizeElement, specStructOk, specKindRuleAmended, buildSanitized,
            optNum, h1, h3, h4, ht, hst, hline, hnotline, t1, t2, inum, iundef, hw, hh]
        · by_cases hwz : jleZero (JValue.num (toNumber e.width)) <;>
            by_cases hhz : jleZero (JValue.num (toNumber e.height)) <;>
            simp [validateAndSanitizeElement, specStructOk, specKindRuleAmended, buildSanitized,
              optNum, h1, h3, h4, ht, hst, hline, hnotline, t1, t2, inum, iundef,
              hw, hh, hwz, hhz]

/-- Any element that passes completion-stage validation comes out with
`isComplete = true` (`Boolean(element.isComplete || true)`). -/
theorem validate_completion_isComplete (e : JRec) (u : String) (now : ℚ) (s : JRec)
    (h : validateAndSanitizeElement e u true now = some s) :
    s.isComplete = .bool true := by
  unfold validateAndSanitizeElement at h
  repeat' (first | split at h | dsimp only at h)
  all_goals first
    | (exfalso
       exact Option.noConfusion h)
    | (injection h with h2
       subst h2
       simp [buildSanitized])

/-- A three-valid-point line payload: accepted by the code at completion. -/
def cLine3 : JRec :=
  { id := .str "ln", type := .str "shape", x := .num (.val 0), y := .num (.val 0),
    shapeType := .str "line",
    points := .parr [(.num (.val 0), .num (.val 0)), (.num (.val 1), .num (.val 1)),
      (.num (.val 2), .num (.val 2))] }

/-- A rectangle payload whose extent is NaN × NaN: accepted by the code at
completion, because `NaN <= 0` is false in JS. -/
def cRectNaN : JRec :=
  { id := .str "rc", type := .str "shape", x := .num (.val 0), y := .num (.val 0),
    shapeType := .str "rectangle", width := .num .nan, height := .num .nan }

/-- Counterexample to C1 as stated: completion-stage validation is *not*
equivalent to the claimed kind-specific rule — a line with three valid points
is accepted (the code checks `>= 2`, not "exactly 2"), and a rectangle with
NaN width and height is accepted (the code checks `<= 0`, which NaN fails to
trigger, not "strictly positive"). -/
theorem completion_gate_cex :
    ¬ ((validateAndSanitizeElement cLine3 "u" true 0).isSome = true ↔
        (specStructOk cLine3 = true ∧ specKindRuleClaimed cLine3 = true)) ∧
    ¬ ((validateAndSanitizeElement cRectNaN "u" true 0).isSome = true ↔
        (specStructOk cRectNaN = true ∧ specKindRuleClaimed cRectNaN = true)) := by
  constructor
  · intro h
    have := h.mp (by decide)
    exact absurd this.2 (by decide)
  · intro h
    have := h.mp (by decide)
    exact absurd this.2 (by decide)

/-- C1 (amended): completion-stage validation succeeds iff the payload is
structurally valid and satisfies the kind-specific minimum-content rule as
the code enforces it (freehand ≥ 2 valid points, line **at least** 2 valid
points, rectangle/circle width and height present and not ≤ 0 — NaN passes —
text non-empty after trimming); on rejection `complete-element` sends exactly
one error to the sender and leaves the Store unchanged; on success the
element is marked `complete = true` and (when the room holds the target
element id) is stored by replace-by-id and broadcast to the others. -/
theorem completion_gate (e : JRec) (sid rid eid : String) (now : ℚ) (store : Store) :
    ((validateAndSanitizeElement e sid true now).isSome ↔
      (specStructOk e ∧ specKindRuleAmended e)) ∧
    (validateAndSanitizeElement e sid true now = none →
      completeElement store sid rid eid e now =
        (store, [.toSender "error" (.pMsg "Invalid element data for completion")])) ∧
    (∀ s, validateAndSanitizeElement e sid true now = some s →
      s.isComplete = .bool true ∧
      (roomHasElement store rid eid = true →
        completeElement store sid rid eid e now =
          (updateRoom store rid (fun r => { r with elements := replaceById r.elements eid s }),
           [.toOthers rid "element-completed" (.pElement s)]))) := by
  refine ⟨validate_completion_isSome e sid now, ?_, ?_⟩
  · intro h
    unfold completeElement
    rw [h]
  · intro s hs
    refine ⟨validate_completion_isComplete e sid now s hs, ?_⟩
    intro hroom
    unfold completeElement
    rw [hs]
    simp [hroom]

/-- A valid text-completion payload and its sanitized form. -/
def cText : JRec :=
  { id := .str "b", type := .str "text", x := .num (.val 1), y := .num (.val 1),
    text := .str "hi" }

def cTextSan : JRec :=
  { id := .str "b", type := .str "text", x := .num (.val 1), y := .num (.val 1),
    color := .str "#000000", strokeWidth := .num (.val 2), timestamp := .num (.val 0),
    userId := .str "u", isComplete := .bool true, text := .str "hi" }

/-- Witness for C1: completing a concrete valid text element replaces the
stored draft, marks it complete, and broadcasts to the others. -/
theorem completion_gate_witness :
    completeElement [⟨"r", "R", [], [gTextSan]⟩] "u" "r" "b" cText 0 =
      ([⟨"r", "R", [], [cTextSan]⟩],
       [.toOthers "r" "element-completed" (.pElement cTextSan)]) := by
  have h := ((completion_gate cText "u" "r" "b" 0 [⟨"r", "R", [], [gTextSan]⟩]).2.2
    cTextSan (by decide)).2 (by decide)
  rw [h]
  decide

/-! ## C7: update-element -/

/-- A full-replacement rectangle payload with zero extent: a valid draft
(creation-stage) element. -/
def uRect0 : JRec :=
  { id := .str "rc", type := .str "shape", x := .num (.val 0), y := .num (.val 0),
    shapeType := .str "rectangle", width := .num (.val 0), height := .num (.val 0) }

/-- Counterexample to C7 as stated: a full element replacement that is a
valid *draft* (a rectangle still at 0 × 0 extent, clearly not a terminal
update) is nevertheless rejected by `update-element` with an error and no
Document change — the handler validates every full replacement at completion
stage, it never treats one as a draft-stage replacement. -/
theorem updateElement_draft_replacement_cex :
    (validateAndSanitizeElement uRect0 "u" false 0).isSome = true ∧
    updateElement [⟨"r", "R", [], []⟩] "u" "r" "rc" uRect0 0 =
      ([⟨"r", "R", [], []⟩], [.toSender "error" (.pMsg "Invalid element data")]) := by
  constructor
  · decide
  · decide

/-- The sanitized partial patch produced by the points branch of
`update-element`. -/
def partialPointsPatch (u : JRec) (l : List (JPrim × JPrim)) : JRec :=
  sanitizePartialShapeType { u with points := pointsVal (strictValidPoints l) }

/-- C7 (amended): every full element replacement (a patch carrying `type`,
`x` and `y`) is validated at completion stage unconditionally — there is no
terminal/non-terminal distinction — and applied by replace-by-id on success;
a partial patch carrying a `path` array is applied only when the array holds
at least 2 valid points, independent of the element's completion flag, and is
otherwise rejected with an error to the sender and no Document change. -/
theorem updateElement_policy (store : Store) (sid rid eid : String) (u : JRec) (now : ℚ) :
    (isFullElement u = true →
      (validateAndSanitizeElement u sid true now = none →
        updateElement store sid rid eid u now =
          (store, [.toSender "error" (.pMsg "Invalid element data")])) ∧
      (∀ s, validateAndSanitizeElement u sid true now = some s →
        roomHasElement store rid eid = true →
        updateElement store sid rid eid u now =
          (updateRoom store rid (fun r => { r with elements := replaceById r.elements eid s }),
           [.toOthers rid "element-updated" (.pUpdates eid s)]))) ∧
    (∀ l, isFullElement u = false → u.points = .parr l →
      (strictValidPoints l).length < 2 →
      updateElement store sid rid eid u now =
        (store, [.toSender "error" (.pMsg "Invalid points data")])) ∧
    (∀ l, isFullElement u = false → u.points = .parr l →
      2 ≤ (strictValidPoints l).length →
      roomHasElement store rid eid = true →
      updateElement store sid rid eid u now =
        (updateRoom store rid (fun r =>
          { r with elements := patchById r.elements eid (partialPointsPatch u l) }),
         [.toOthers rid "element-updated" (.pUpdates eid (partialPointsPatch u l))])) := by
  refine ⟨?_, ?_, ?_⟩
  · intro hf
    constructor
    · intro hv
      unfold updateElement
      rw [if_pos hf, hv]
    · intro s hv hroom
      unfold updateElement
      rw [if_pos hf, hv]
      simp [hroom]
  · intro l hf hp hl
    unfold updateElement
    rw [hf]
    simp only [Bool.false_eq_true, if_false, hp]
    rw [if_pos hl]
  · intro l hf hp hl hroom
    unfold updateElement
    rw [hf]
    simp only [Bool.false_eq_true, if_false, hp]
    rw [if_neg (by omega : ¬ (strictValidPoints l).length < 2)]
    simp [hroom, partialPointsPatch]

/-- A partial patch carrying only a two-point path. -/
def pPatch2 : JRec :=
  { points := .parr [(.num (.val 0), .num (.val 0)), (.num (.val 3), .num (.val 4))] }

/-- Witness for C7: the two-point partial patch is applied to the stored
stroke and broadcast; the element's completion flag plays no role. -/
theorem updateElement_policy_witness :
    updateElement [⟨"r", "R", [], [gDrawSan]⟩] "u" "r" "a" pPatch2 0 =
      ([⟨"r", "R", [],
         [{ gDrawSan with
             points := .parr [(.num (.val 0), .num (.val 0)), (.num (.val 3), .num (.val 4))] }]⟩],
       [.toOthers "r" "element-updated"
         (.pUpdates "a"
           { points := .parr [(.num (.val 0), .num (.val 0)), (.num (.val 3), .num (.val 4))] })]) := by
  have h := (updateElement_policy [⟨"r", "R", [], [gDrawSan]⟩] "u" "r" "a" pPatch2 0).2.2
    [(.num (.val 0), .num (.val 0)), (.num (.val 3), .num (.val 4))]
    (by decide) (by decide) (by decide) (by decide)
  rw [h]
  decide

/-! ## C8: NaN handling in the validators -/

/-- A payload whose `width` property is NaN (typeof number, coercion NaN). -/
def eWidthNaN : JRec :=
  { id := .str "a", type := .str "text", x := .num (.val 0), y := .num (.val 0),
    width := .num .nan }

/-- A payload whose `x` coordinate is NaN (`typeof NaN === 'number'`). -/
def eXNaN : JRec :=
  { id := .str "a", type := .str "text", x := .num .nan, y := .num (.val 0) }

/-- Counterexample to C8 as stated: the strict validator stores a NaN `width`
unchanged (its optional-field coercion has no NaN check), and even the
lenient validator lets a NaN coordinate through (coordinates are only
`typeof`-checked, and NaN is of type number) — so validation can return an
element with a NaN-valued width or coordinate. -/
theorem validator_nan_cex :
    ((validateAndSanitizeElement eWidthNaN "u" false 0).map JRec.width) =
      some (.num .nan) ∧
    ((validateElement eXNaN 0).map JRec.x) = some (.num .nan) := by
  constructor
  · decide
  · decide

/-- The optional numeric fields of the lenient sanitized record are never
NaN: the `isNaN` guard drops exactly the failed coercions. -/
theorem lenientSanitized_no_nan (e : JRec) (now : ℚ) :
    (lenientSanitized e now).width ≠ .num .nan ∧
    (lenientSanitized e now).height ≠ .num .nan ∧
    (lenientSanitized e now).fontSize ≠ .num .nan := by
  unfold lenientSanitized
  refine ⟨?_, ?_, ?_⟩ <;> dsimp only <;> (split <;> simp_all [jsIsNaN])

/-- Any element the lenient validator returns is the sanitized record, with
only the `points` field possibly replaced. -/
theorem validateElement_fields (e : JRec) (now : ℚ) (r : JRec)
    (h : validateElement e now = some r) :
    r.width = (lenientSanitized e now).width ∧
    r.height = (lenientSanitized e now).height ∧
    r.fontSize = (lenientSanitized e now).fontSize ∧
    r.shapeType = (lenientSanitized e now).shapeType ∧
    r.extra = (lenientSanitized e now).extra := by
  unfold validateElement at h
  split at h
  · exact Option.noConfusion h
  · injection h with h2
    subst h2
    rcases e.points with _ | _ | _ | _ | _ | l
    iterate 5 exact ⟨rfl, rfl, rfl, rfl, rfl⟩
    dsimp only
    split
    · exact ⟨rfl, rfl, rfl, rfl, rfl⟩
    · exact ⟨rfl, rfl, rfl, rfl, rfl⟩

/-- C8 (amended): the *lenient* validator (`validateElement`, the older
variant) drops the optional numeric fields `width`, `height` and `fontSize`
when their coercion fails the `isNaN` guard, so an element it returns never
carries NaN in those fields; the strict validator coerces optional numeric
fields without a NaN check, and neither validator NaN-checks the
coordinates. -/
theorem validateElement_no_nan (e : JRec) (now : ℚ) (r : JRec)
    (h : validateElement e now = some r) :
    r.width ≠ .num .nan ∧ r.height ≠ .num .nan ∧ r.fontSize ≠ .num .nan := by
  obtain ⟨hw, hh, hf, -, -⟩ := validateElement_fields e now r h
  obtain ⟨nw, nh, nf⟩ := lenientSanitized_no_nan e now
  exact ⟨hw ▸ nw, hh ▸ nh, hf ▸ nf⟩

/-- A payload whose `width` is the string `"abc"`, which coerces to NaN. -/
def eWidthAbc : JRec :=
  { id := .str "a", type := .str "text", x := .num (.val 0), y := .num (.val 0),
    width := .str "abc" }

/-- The element the lenient validator returns for it. -/
def rWidthAbc : JRec := (validateElement eWidthAbc 0).getD {}

/-- Witness for C8: the failed-coercion width is dropped, and the returned
element carries no NaN width/height/fontSize. -/
theorem validateElement_no_nan_witness :
    rWidthAbc.width ≠ .num .nan ∧ rWidthAbc.height ≠ .num .nan ∧
      rWidthAbc.fontSize ≠ .num .nan :=
  validateElement_no_nan eWidthAbc 0 rWidthAbc (by decide)

/-! ## C9: unrecognized shape-variant values -/

/-- A shape payload with the unrecognized variant `"triangle"`. -/
def sTriangle : JRec :=
  { id := .str "s", type := .str "shape", x := .num (.val 0), y := .num (.val 0),
    shapeType := .str "triangle", width := .num (.val 5), height := .num (.val 5) }

/-- A drawing payload carrying the unrecognized variant `"triangle"`. -/
def dTriangle : JRec :=
  { id := .str "d", type := .str "drawing", x := .num (.val 0), y := .num (.val 0),
    shapeType := .str "triangle",
    points := .parr [(.num (.val 0), .num (.val 0))] }

/-- Counterexample to C9 as stated: the strict validator *rejects* a shape
element whose shape-variant is unrecognized (it does not accept it with the
field omitted), and for a non-shape element it *keeps* the unrecognized
value in the returned element instead of omitting it. -/
theorem shape_variant_cex :
    validateAndSanitizeElement sTriangle "u" false 0 = none ∧
    ((validateAndSanitizeElement dTriangle "u" false 0).map JRec.shapeType) =
      some (.str "triangle") := by
  constructor
  · decide
  · decide

/-- C9 (amended): the *lenient* validator (`validateElement`) drops unknown
extra fields silently, omits an unrecognized shape-variant from the returned
element while still accepting the element (any payload passing the basic
structural check is accepted regardless of its shape-variant), and logs a
warning exactly when a shape-variant property is present but unrecognized;
the strict validator instead rejects `shape`-kind payloads whose sanitized
shape-variant is unrecognized. -/
theorem validateElement_shape_variant (e : JRec) (now : ℚ) :
    (∀ r, validateElement e now = some r →
      r.extra = [] ∧ (¬ rawShapeValid e.shapeType → r.shapeType = .undef)) ∧
    (e.id.truthy ∧ e.type.truthy ∧ e.x.isNumber ∧ e.y.isNumber →
      (validateElement e now).isSome = true) ∧
    (e.shapeType ≠ .undef → ¬ rawShapeValid e.shapeType →
      validateElementWarns e = true) ∧
    (∀ u ic, e.type = .str "shape" → shapeTypeOk (optStr e.shapeType) = false →
      validateAndSanitizeElement e u ic now = none) := by
  refine ⟨?_, ?_, ?_, ?_⟩
  · intro r h
    obtain ⟨-, -, -, hst, hex⟩ := validateElement_fields e now r h
    constructor
    · rw [hex]
      rfl
    · intro hnr
      rw [hst]
      unfold lenientSanitized
      dsimp only
      split <;> simp_all
  · intro hbase
    unfold validateElement
    rw [if_neg (not_not_intro hbase)]
    simp
  · intro h1 h2
    simp [validateElementWarns, h1, h2]
  · intro u ic ht hst
    unfold validateAndSanitizeElement
    split
    · rfl
    · split
      · rfl
      · simp [ht, buildSanitized, hst]

/-- Witness for C9: the lenient validator accepts the triangle-variant shape
payload, drops the unrecognized variant, keeps no extra fields, and warns. -/
theorem validateElement_shape_variant_witness :
    ((validateElement sTriangle 0).getD {}).extra = [] ∧
      ((validateElement sTriangle 0).getD {}).shapeType = .undef := by
  have h := (validateElement_shape_variant sTriangle 0).1
    ((validateElement sTriangle 0).getD {}) (by decide)
  exact ⟨h.1, h.2 (by decide)⟩
